import Mathlib

/-!
Verification development for the bonding-curve pricing and reserve-accounting
engine of the token-issuance platform.

Two source components are embedded:

* `BondingCurve` — the power-law curve class from `app/src/lib/bonding-curve.ts`
  (`calculatePrice`, `calculateIntegral`, `solveForSupply`, `calculateBuyAmount`,
  `calculateSellAmount`, `validateTrade`, `getMaxPrice`).  JavaScript `number`s
  are idealised as elements of a linear ordered field; `Math.log` is kept as an
  explicit function parameter `lg` so that the even branches (exponent ≠ 1) are
  fully computable over `ℚ` while the exponent-1 branch can be instantiated with
  `Real.log` over `ℝ`.  The curve exponent `k` is modelled as a natural number
  (the code compares it with `=== 1` and the shipped configuration uses `k = 2`).

* `useBondingCurve` — the constant-product (virtual-reserves) hook from the
  sources (`getCurrentPrice`, `calculateBuy`, `calculateSell`, `executeBuy`,
  `executeSell`), embedded over `ℚ`.  The wallet-connection guard and the mock
  transaction latency are UI glue and are outside the economic model; the
  state update applied on success is embedded exactly.
-/

namespace BondingCurve

/-- Curve configuration from `bonding-curve.ts` (`BondingCurveConfig`). -/
structure BondingCurveConfig (F : Type) where
  initialPrice : F
  k : ℕ
  maxSupply : F
  reserveRatio : F
deriving DecidableEq

/-- Result record of `calculateBuyAmount` / `calculateSellAmount`
(`TradeCalculation` in `bonding-curve.ts`). -/
structure TradeCalculation (F : Type) where
  inputAmount : F
  outputAmount : F
  priceAfter : F
  priceImpact : F
  slippage : F
  fee : F
  netAmount : F
deriving DecidableEq

/-- The single exception thrown by `calculateSellAmount`
("Cannot sell more tokens than current supply"). -/
inductive SellError where
  | cannotSellMoreThanSupply
deriving DecidableEq

variable {F : Type} [LinearOrderedField F]

/-- Source `getMaxPrice`: `initialPrice * Math.pow(1, k)`. -/
def getMaxPrice (cfg : BondingCurveConfig F) : F :=
  cfg.initialPrice * 1 ^ cfg.k

/-- Source `calculatePrice`: clamps to `initialPrice` for `supply <= 0`, to
`getMaxPrice()` for `supply >= maxSupply`, else
`initialPrice * (supply / maxSupply)^k`. -/
def calculatePrice (cfg : BondingCurveConfig F) (supply : F) : F :=
  if supply ≤ 0 then cfg.initialPrice
  else if supply ≥ cfg.maxSupply then getMaxPrice cfg
  else cfg.initialPrice * (supply / cfg.maxSupply) ^ cfg.k

/-- Source `calculateIntegral(supply, solAmount)`: the second argument is accepted and
ignored, exactly as in the source.  For `k = 1` it returns
`initialPrice * supply * Math.log(supply / maxSupply + 1)`; otherwise, with
`exponent = k + 1`, it returns
`initialPrice * maxSupply / exponent * Math.pow(supply / maxSupply, exponent)`. -/
def calculateIntegral (lg : F → F) (cfg : BondingCurveConfig F)
    (supply solAmount : F) : F :=
  if cfg.k = 1 then cfg.initialPrice * supply * lg (supply / cfg.maxSupply + 1)
  else cfg.initialPrice * cfg.maxSupply / ((cfg.k : F) + 1) *
    (supply / cfg.maxSupply) ^ (cfg.k + 1)

/-- Bisection loop body of `solveForSupply`, with explicit fuel.  At fuel `0`
(the 100 loop iterations exhausted) the source returns `(low + high) / 2`. -/
def solveForSupplyAux (lg : F → F) (cfg : BondingCurveConfig F)
    (currentSupply targetIntegral : F) : ℕ → F × F → F
  | 0, lh => (lh.1 + lh.2) / 2
  | n + 1, lh =>
    let mid := (lh.1 + lh.2) / 2
    let integral := calculateIntegral lg cfg mid 0 -
      calculateIntegral lg cfg currentSupply 0
    if |integral - targetIntegral| < 1 / 10 ^ 10 then mid
    else if integral < targetIntegral then
      solveForSupplyAux lg cfg currentSupply targetIntegral n (mid, lh.2)
    else
      solveForSupplyAux lg cfg currentSupply targetIntegral n (lh.1, mid)

/-- Source `solveForSupply`: bisection over `[currentSupply, maxSupply]` with
tolerance `1e-10` and an iteration cap of 100. -/
def solveForSupply (lg : F → F) (cfg : BondingCurveConfig F)
    (currentSupply targetIntegral : F) : F :=
  solveForSupplyAux lg cfg currentSupply targetIntegral 100
    (currentSupply, cfg.maxSupply)

/-- Observer for the bisection in `solveForSupply`: `true` iff some iteration's
midpoint satisfies the `1e-10` tolerance test within the fuel, i.e. iff the
loop exits through its `return mid` branch. -/
def bisectionConvergedAux (lg : F → F) (cfg : BondingCurveConfig F)
    (currentSupply targetIntegral : F) : ℕ → F × F → Bool
  | 0, _ => false
  | n + 1, lh =>
    let mid := (lh.1 + lh.2) / 2
    let integral := calculateIntegral lg cfg mid 0 -
      calculateIntegral lg cfg currentSupply 0
    if |integral - targetIntegral| < 1 / 10 ^ 10 then true
    else if integral < targetIntegral then
      bisectionConvergedAux lg cfg currentSupply targetIntegral n (mid, lh.2)
    else
      bisectionConvergedAux lg cfg currentSupply targetIntegral n (lh.1, mid)

/-- Whether the 100-iteration bisection of `solveForSupply` reaches the
`1e-10` tolerance. -/
def bisectionConverged (lg : F → F) (cfg : BondingCurveConfig F)
    (currentSupply targetIntegral : F) : Bool :=
  bisectionConvergedAux lg cfg currentSupply targetIntegral 100
    (currentSupply, cfg.maxSupply)

/-- The interval iteration of the bisection with the early-exit test removed:
used to describe what `solveForSupply` returns when the tolerance is never
met. -/
def bisectIter (lg : F → F) (cfg : BondingCurveConfig F)
    (currentSupply targetIntegral : F) : ℕ → F × F → F × F
  | 0, lh => lh
  | n + 1, lh =>
    let mid := (lh.1 + lh.2) / 2
    let integral := calculateIntegral lg cfg mid 0 -
      calculateIntegral lg cfg currentSupply 0
    if integral < targetIntegral then
      bisectIter lg cfg currentSupply targetIntegral n (mid, lh.2)
    else
      bisectIter lg cfg currentSupply targetIntegral n (lh.1, mid)

/-- Source `calculateBuyAmount(solAmount, currentSupply)`: note that the target
integral passed to the bisection is `calculateIntegral(currentSupply,
netSolAmount)`, whose second argument is ignored by `calculateIntegral`. -/
def calculateBuyAmount (lg : F → F) (cfg : BondingCurveConfig F) (feeRate : F)
    (solAmount currentSupply : F) : TradeCalculation F :=
  let fee := solAmount * feeRate
  let netSolAmount := solAmount - fee
  let currentPrice := calculatePrice cfg currentSupply
  let integral := calculateIntegral lg cfg currentSupply netSolAmount
  let newSupply := solveForSupply lg cfg currentSupply integral
  let tokensOut := newSupply - currentSupply
  let newPrice := calculatePrice cfg newSupply
  let priceImpact := (newPrice - currentPrice) / currentPrice * 100
  let avgPrice := netSolAmount / tokensOut
  let slippage := (avgPrice - currentPrice) / currentPrice * 100
  { inputAmount := solAmount
    outputAmount := tokensOut
    priceAfter := newPrice
    priceImpact := priceImpact
    slippage := slippage
    fee := fee
    netAmount := tokensOut }

/-- Source `calculateSellAmount(tokenAmount, currentSupply)`: throws when
`tokenAmount >= currentSupply`, else prices the sell by the integral between
the two supply points, with the fee taken from the output quote amount. -/
def calculateSellAmount (lg : F → F) (cfg : BondingCurveConfig F) (feeRate : F)
    (tokenAmount currentSupply : F) : Except SellError (TradeCalculation F) :=
  if tokenAmount ≥ currentSupply then .error .cannotSellMoreThanSupply
  else
    let currentPrice := calculatePrice cfg currentSupply
    let newSupply := currentSupply - tokenAmount
    let newPrice := calculatePrice cfg newSupply
    let integral := calculateIntegral lg cfg newSupply 0 -
      calculateIntegral lg cfg currentSupply 0
    let solOut := |integral|
    let fee := solOut * feeRate
    let netSolOut := solOut - fee
    let priceImpact := (currentPrice - newPrice) / currentPrice * 100
    let avgPrice := solOut / tokenAmount
    let slippage := (currentPrice - avgPrice) / currentPrice * 100
    .ok
      { inputAmount := tokenAmount
        outputAmount := netSolOut
        priceAfter := newPrice
        priceImpact := priceImpact
        slippage := slippage
        fee := fee
        netAmount := netSolOut }

/-- Source `validateTrade(amount, isBuy, currentSupply)`. -/
def validateTrade (lg : F → F) (cfg : BondingCurveConfig F) (feeRate : F)
    (amount : F) (isBuy : Bool) (currentSupply : F) : Bool :=
  if amount ≤ 0 then false
  else if isBuy then
    let calculation := calculateBuyAmount lg cfg feeRate amount currentSupply
    decide (calculation.outputAmount > 0) &&
      decide (currentSupply + calculation.outputAmount ≤ cfg.maxSupply)
  else decide (amount ≤ currentSupply)

end BondingCurve

namespace useBondingCurve

/-- Constant `BONDING_CURVE_CONSTANTS.FEE_RATE` (0.01). -/
def feeRate : ℚ := 1 / 100

/-- Constant `BONDING_CURVE_CONSTANTS.SLIPPAGE_TOLERANCE` (0.05). -/
def slippageTolerance : ℚ := 5 / 100

/-- Constant `BONDING_CURVE_CONSTANTS.REAL_SOL_RESERVES_TARGET` (85): the graduation
target in quote units. -/
def realSolReservesTarget : ℚ := 85

/-- State record `BondingCurveState` of the hook.  The fields `virtualSolReserves`/`virtualTokenReserves`
are the spec's `virtualQuote`/`virtualBase`; `realSolReserves` is `realQuote`;
`isComplete` is the graduation flag (`isGraduated`). -/
structure BondingCurveState where
  virtualSolReserves : ℚ
  virtualTokenReserves : ℚ
  realSolReserves : ℚ
  realTokenReserves : ℚ
  totalSupply : ℚ
  marketCap : ℚ
  progress : ℚ
  isComplete : Bool
deriving DecidableEq

/-- Quote record `BondingCurveCalculation` of the hook. -/
structure BondingCurveCalculation where
  outputAmount : ℚ
  priceImpact : ℚ
  newPrice : ℚ
  slippage : ℚ
  fee : ℚ
deriving DecidableEq

/-- The only failure of `executeBuy`/`executeSell` inside the economic model:
the thrown "Slippage too high" error. -/
inductive ExecError where
  | slippageTooHigh
deriving DecidableEq

/-- Source `getCurrentPrice`: `virtualSolReserves / virtualTokenReserves`. -/
def getCurrentPrice (st : BondingCurveState) : ℚ :=
  st.virtualSolReserves / st.virtualTokenReserves

/-- Source `calculateBuy(solAmount)`: constant-product buy quote with the fee taken
from the input and `slippage = |priceImpact|`. -/
def calculateBuy (st : BondingCurveState) (solAmount : ℚ) :
    BondingCurveCalculation :=
  let fee := solAmount * feeRate
  let netSolAmount := solAmount - fee
  let k := st.virtualSolReserves * st.virtualTokenReserves
  let newSolReserves := st.virtualSolReserves + netSolAmount
  let newTokenReserves := k / newSolReserves
  let outputAmount := st.virtualTokenReserves - newTokenReserves
  let oldPrice := getCurrentPrice st
  let newPrice := newSolReserves / newTokenReserves
  let priceImpact := (newPrice - oldPrice) / oldPrice * 100
  let slippage := |priceImpact|
  { outputAmount := outputAmount
    priceImpact := priceImpact
    newPrice := newPrice
    slippage := slippage
    fee := fee }

/-- Source `calculateSell(tokenAmount)`: constant-product sell quote with the fee
taken from the gross quote output. -/
def calculateSell (st : BondingCurveState) (tokenAmount : ℚ) :
    BondingCurveCalculation :=
  let k := st.virtualSolReserves * st.virtualTokenReserves
  let newTokenReserves := st.virtualTokenReserves + tokenAmount
  let newSolReserves := k / newTokenReserves
  let grossSolAmount := st.virtualSolReserves - newSolReserves
  let fee := grossSolAmount * feeRate
  let outputAmount := grossSolAmount - fee
  let oldPrice := getCurrentPrice st
  let newPrice := newSolReserves / newTokenReserves
  let priceImpact := (newPrice - oldPrice) / oldPrice * 100
  let slippage := |priceImpact|
  { outputAmount := outputAmount
    priceImpact := priceImpact
    newPrice := newPrice
    slippage := slippage
    fee := fee }

/-- Source `executeBuy(solAmount)`: recomputes the quote, throws when the quoted
slippage exceeds `SLIPPAGE_TOLERANCE * 100`, else applies
`virtualSolReserves += solAmount - fee`, `virtualTokenReserves -= outputAmount`,
`realSolReserves += solAmount - fee`.  No other state field is touched. -/
def executeBuy (st : BondingCurveState) (solAmount : ℚ) :
    Except ExecError BondingCurveState :=
  let calculation := calculateBuy st solAmount
  if calculation.slippage > slippageTolerance * 100 then .error .slippageTooHigh
  else .ok
    { st with
      virtualSolReserves := st.virtualSolReserves + (solAmount - calculation.fee)
      virtualTokenReserves := st.virtualTokenReserves - calculation.outputAmount
      realSolReserves := st.realSolReserves + (solAmount - calculation.fee) }

/-- Source `executeSell(tokenAmount)`: recomputes the quote, throws on the same
slippage bound, else applies `virtualSolReserves -= outputAmount`,
`virtualTokenReserves += tokenAmount`,
`realSolReserves = max(0, realSolReserves - outputAmount)`. -/
def executeSell (st : BondingCurveState) (tokenAmount : ℚ) :
    Except ExecError BondingCurveState :=
  let calculation := calculateSell st tokenAmount
  if calculation.slippage > slippageTolerance * 100 then .error .slippageTooHigh
  else .ok
    { st with
      virtualSolReserves := st.virtualSolReserves - calculation.outputAmount
      virtualTokenReserves := st.virtualTokenReserves + tokenAmount
      realSolReserves := max 0 (st.realSolReserves - calculation.outputAmount) }

end useBondingCurve

/-! ### Concrete instances used by witnesses and counterexamples -/

/-- Trivial stand-in for `Math.log` on paths where the exponent-1 branch is
dead code (all these instances use `k = 2`). -/
def lg0 : ℚ → ℚ := fun _ => 0

/-- Power-law configuration with `initialPrice = 1`, `k = 2`, `maxSupply = 100`. -/
def cfgPow : BondingCurve.BondingCurveConfig ℚ := ⟨1, 2, 100, 1/10⟩

/-- Power-law configuration with `k = 2` and `maxSupply = 1`, used to drive the
bisection to its iteration cap. -/
def cfgUnit : BondingCurve.BondingCurveConfig ℚ := ⟨1, 2, 1, 1/10⟩

/-- Linear (`k = 1`) power-law configuration over `ℚ`. -/
def cfgLin : BondingCurve.BondingCurveConfig ℚ := ⟨1, 1, 100, 1/10⟩

/-- Linear (`k = 1`) power-law configuration over `ℝ`, for the log branch. -/
noncomputable def cfgR1 : BondingCurve.BondingCurveConfig ℝ := ⟨1, 1, 100, 1/10⟩

/-- Constant-product state with 100/100 virtual reserves. -/
def st0 : useBondingCurve.BondingCurveState := ⟨100, 100, 0, 0, 1000, 0, 0, false⟩

/-- The state after `executeBuy st0 1`. -/
def st0buy : useBondingCurve.BondingCurveState :=
  ⟨10099/100, 10^6/10099, 99/100, 0, 1000, 0, 0, false⟩

/-- The state after the round trip: `executeBuy st0 1` followed by selling the
resulting output back.  `realSolReserves` ends at `99/10000`, the sell fee. -/
def st0rt : useBondingCurve.BondingCurveState :=
  ⟨1000099/10000, 100, 99/10000, 0, 1000, 0, 0, false⟩

/-- Constant-product state with 10/100 virtual reserves (high price impact). -/
def st10 : useBondingCurve.BondingCurveState := ⟨10, 100, 0, 0, 1000, 0, 0, false⟩

/-- A graduated market: `isComplete = true` with `realSolReserves` at the
85-quote target. -/
def stGrad : useBondingCurve.BondingCurveState := ⟨100, 100, 85, 0, 1000, 0, 100, true⟩

/-- The state after `executeBuy stGrad 1`. -/
def stGradAfter : useBondingCurve.BondingCurveState :=
  ⟨10099/100, 10^6/10099, 8599/100, 0, 1000, 0, 100, true⟩

/-- A market just below the graduation target (`realSolReserves = 84.2`). -/
def stCross : useBondingCurve.BondingCurveState :=
  ⟨100, 100, 421/5, 0, 1000, 0, 0, false⟩

/-- The state after `executeBuy stCross 1`: `realSolReserves = 85.19`, past
the target, with `isComplete` still `false`. -/
def stCrossAfter : useBondingCurve.BondingCurveState :=
  ⟨10099/100, 10^6/10099, 8519/100, 0, 1000, 0, 0, false⟩

/-- Constant-product state with 30/100 virtual reserves. -/
def st30 : useBondingCurve.BondingCurveState := ⟨30, 100, 0, 0, 1000, 0, 0, false⟩

/-- The state after `executeSell st30 1`: the product of the virtual reserves
has grown from 3000 to `30003/10`, by the retained fee. -/
def st30sell : useBondingCurve.BondingCurveState :=
  ⟨30003/1010, 101, 0, 0, 1000, 0, 0, false⟩

deriving instance DecidableEq for Except

section Claims

open BondingCurve useBondingCurve

attribute [local semireducible] Rat.add Rat.mul Rat.inv Rat.sub

/-- C10: in the power-law variant the price is bounded above by `initialPrice`
for every configuration with positive `initialPrice`, exponent and `maxSupply`,
and the clamp value `getMaxPrice()` equals `initialPrice` exactly, since
`initialPrice * 1^k = initialPrice`. -/
theorem C10_price_bounded_by_initialPrice {F : Type} [LinearOrderedField F]
    (cfg : BondingCurveConfig F) (hip : 0 < cfg.initialPrice)
    (hk : 0 < cfg.k) (hM : 0 < cfg.maxSupply) :
    (∀ s : F, calculatePrice cfg s ≤ cfg.initialPrice) ∧
      getMaxPrice cfg = cfg.initialPrice := by
  have hmax : getMaxPrice cfg = cfg.initialPrice := by
    unfold getMaxPrice; rw [one_pow, mul_one]
  refine ⟨fun s => ?_, hmax⟩
  unfold calculatePrice
  split
  · exact le_refl _
  next hs =>
    split
    · exact le_of_eq hmax
    next hs' =>
      push_neg at hs hs'
      have h0 : (0:F) ≤ s / cfg.maxSupply := div_nonneg hs.le hM.le
      have h1 : s / cfg.maxSupply ≤ 1 := (div_le_one hM).mpr hs'.le
      calc cfg.initialPrice * (s / cfg.maxSupply) ^ cfg.k
          ≤ cfg.initialPrice * 1 :=
            mul_le_mul_of_nonneg_left (pow_le_one₀ h0 h1) hip.le
        _ = cfg.initialPrice := mul_one _

/-- Witness for C10 at the configuration `⟨1, 2, 100, 1/10⟩` and the supply 50. -/
theorem C10_witness :
    calculatePrice cfgPow 50 ≤ cfgPow.initialPrice ∧
      getMaxPrice cfgPow = cfgPow.initialPrice :=
  ⟨(C10_price_bounded_by_initialPrice cfgPow (by decide) (by decide) (by decide)).1 50,
    (C10_price_bounded_by_initialPrice cfgPow (by decide) (by decide) (by decide)).2⟩

/-- C1 counterexample: with the power-law configuration `initialPrice = 1`,
`k = 1`, `maxSupply = 100`, the supply `s = 0` lies in `[0, maxSupply]` and
`ds = 50 > 0`, yet `calculatePrice (0 + 50) = 1/2 < 1 = calculatePrice 0`,
because the `supply <= 0` clamp returns `initialPrice`, the maximum of the
curve.  The claimed monotonicity fails at the lower clamp. -/
theorem C1_counterexample :
    (0:ℚ) ≤ 0 ∧ 0 ≤ (0:ℚ) ∧ (0:ℚ) < 50 ∧ (0:ℚ) + 50 ≤ cfgLin.maxSupply ∧
      calculatePrice cfgLin (0 + 50) < calculatePrice cfgLin 0 := by
  refine ⟨le_refl _, le_refl _, by decide, by decide, by decide⟩

/-- C1 (amended): price monotonicity holds away from the lower clamp — the
power-law `calculatePrice` is monotone in supply on `(0, ∞)` for every
configuration with nonnegative `initialPrice` and positive `maxSupply`; and in
the constant-product variant the spot price `getCurrentPrice` never decreases
across a successful `executeBuy` with positive input. -/
theorem C1_price_monotone :
    (∀ {F : Type} [LinearOrderedField F] (cfg : BondingCurveConfig F) (s t : F),
        0 ≤ cfg.initialPrice → 0 < cfg.maxSupply → 0 < s → s ≤ t →
        calculatePrice cfg s ≤ calculatePrice cfg t) ∧
    (∀ (st : BondingCurveState) (q : ℚ) (st' : BondingCurveState),
        0 < st.virtualSolReserves → 0 < st.virtualTokenReserves → 0 < q →
        executeBuy st q = .ok st' →
        getCurrentPrice st ≤ getCurrentPrice st') := by
  constructor
  · intro F _ cfg s t hip hM hs hst
    unfold calculatePrice
    rw [if_neg (not_le.mpr hs), if_neg (not_le.mpr (lt_of_lt_of_le hs hst))]
    by_cases hsM : s ≥ cfg.maxSupply
    · rw [if_pos hsM, if_pos (le_trans hsM hst)]
    · rw [if_neg hsM]
      push_neg at hsM
      have h0 : (0:F) ≤ s / cfg.maxSupply := div_nonneg hs.le hM.le
      by_cases htM : t ≥ cfg.maxSupply
      · rw [if_pos htM]
        unfold getMaxPrice
        exact mul_le_mul_of_nonneg_left
          (by rw [one_pow]; exact pow_le_one₀ h0 ((div_le_one hM).mpr hsM.le)) hip
      · rw [if_neg htM]
        exact mul_le_mul_of_nonneg_left
          (pow_le_pow_left₀ h0 ((div_le_div_iff_of_pos_right hM).mpr hst) _) hip
  · intro st q st' hvS hvT hq hok
    obtain ⟨vS, vT, rS, rT, tot, mc, pr, fl⟩ := st
    simp only [executeBuy, calculateBuy, getCurrentPrice, feeRate,
      slippageTolerance] at hok ⊢
    split at hok
    · exact absurd hok (by simp)
    · cases hok
      simp only [getCurrentPrice]
      dsimp only at hvS hvT ⊢
      set A := vS + (q - q * (1/100)) with hAdef
      have hA : vS < A := by rw [hAdef]; nlinarith
      have hA0 : 0 < A := lt_trans hvS hA
      have hden : vT - (vT - vS * vT / A) = vS * vT / A := by ring
      rw [hden]
      have hdpos : 0 < vS * vT / A := div_pos (mul_pos hvS hvT) hA0
      rw [div_le_div_iff₀ hvT hdpos]
      have hAA : vS * vS ≤ A * A := mul_self_le_mul_self hvS.le hA.le
      have h2 : vS * (vS * vT / A) = vS * vS * vT / A := by ring
      rw [h2, div_le_iff₀ hA0]
      nlinarith [mul_le_mul_of_nonneg_right hAA hvT.le]


/-- Witness for C1 at the power-law configuration `⟨1, 2, 100, 1/10⟩` with
supplies 50 ≤ 60, and at the constant-product state `st0` with a buy of 1. -/
theorem C1_witness :
    calculatePrice cfgPow 50 ≤ calculatePrice cfgPow 60 ∧
      getCurrentPrice st0 ≤ getCurrentPrice st0buy :=
  ⟨C1_price_monotone.1 cfgPow 50 60 (by decide) (by decide) (by decide) (by decide),
    C1_price_monotone.2 st0 1 st0buy (by decide) (by decide) (by decide) (by decide)⟩

/-- C7 counterexample: selling exactly the whole current supply
(`baseAmountIn = availableBase = 5`) satisfies `baseAmountIn <= availableBase`,
yet `calculateSellAmount` rejects it, because the source guard is
`tokenAmount >= currentSupply`, not a strict `>`. -/
theorem C7_counterexample :
    (5:ℚ) ≤ 5 ∧
      calculateSellAmount lg0 cfgPow (1/100) 5 5 =
        .error .cannotSellMoreThanSupply :=
  ⟨le_refl _, by decide⟩

/-- C7 (amended): `calculateSellAmount` fails with the insufficient-reserve
error exactly when `tokenAmount >= currentSupply`; every strictly smaller
input passes the guard and yields a quote.  The calculator is pure, so no
reserve state exists to be mutated on failure. -/
theorem C7_oversell_guard {F : Type} [LinearOrderedField F] (lg : F → F)
    (cfg : BondingCurveConfig F) (feeRate tokenAmount currentSupply : F) :
    (currentSupply ≤ tokenAmount →
      calculateSellAmount lg cfg feeRate tokenAmount currentSupply =
        .error .cannotSellMoreThanSupply) ∧
    (tokenAmount < currentSupply →
      (calculateSellAmount lg cfg feeRate tokenAmount
          currentSupply).toOption.isSome = true) := by
  constructor
  · intro h
    unfold calculateSellAmount
    rw [if_pos h]
  · intro h
    unfold calculateSellAmount
    rw [if_neg (not_le.mpr h)]
    rfl

/-- Witness for C7: selling 6 of a supply of 5 is rejected; selling 3 of a
supply of 5 passes the guard. -/
theorem C7_witness :
    calculateSellAmount lg0 cfgPow (1/100) 6 5 =
        .error .cannotSellMoreThanSupply ∧
      (calculateSellAmount lg0 cfgPow (1/100) 3 5).toOption.isSome = true :=
  ⟨(C7_oversell_guard lg0 cfgPow (1/100) 6 5).1 (by decide),
    (C7_oversell_guard lg0 cfgPow (1/100) 3 5).2 (by decide)⟩

/-- C9 counterexample: `calculateBuyAmount` accepts the non-positive input
`solAmount = -1` and returns an ordinary `TradeCalculation` (fee computed by
the usual formula, positive token output) instead of failing with
`InvalidAmount`. -/
theorem C9_counterexample :
    (-1:ℚ) ≤ 0 ∧
      (calculateBuyAmount lg0 cfgUnit (1/100) (-1) 0).fee = -1 * (1/100) ∧
      (calculateBuyAmount lg0 cfgUnit (1/100) (-1) 0).outputAmount = 1/2048 :=
  ⟨by decide, by decide, by decide⟩

/-- C9 (amended): `calculateBuyAmount` itself rejects nothing — for every
input it returns a calculation with `fee = solAmount * feeRate` on the
unmodified `inputAmount` — and the `amount <= 0` guard lives solely in
`validateTrade`, which returns `false` there. -/
theorem C9_guard_in_validateTrade {F : Type} [LinearOrderedField F]
    (lg : F → F) (cfg : BondingCurveConfig F)
    (feeRate amount currentSupply : F) :
    (calculateBuyAmount lg cfg feeRate amount currentSupply).fee =
        amount * feeRate ∧
    (calculateBuyAmount lg cfg feeRate amount currentSupply).inputAmount =
        amount ∧
    (amount ≤ 0 →
      validateTrade lg cfg feeRate amount true currentSupply = false) := by
  refine ⟨rfl, rfl, fun h => ?_⟩
  unfold validateTrade
  rw [if_pos h]

/-- Witness for C9 at `solAmount = -1`, `currentSupply = 0`. -/
theorem C9_witness :
    (calculateBuyAmount lg0 cfgUnit (1/100) (-1) 0).fee = -1 * (1/100) ∧
    (calculateBuyAmount lg0 cfgUnit (1/100) (-1) 0).inputAmount = -1 ∧
    validateTrade lg0 cfgUnit (1/100) (-1) true 0 = false :=
  ⟨(C9_guard_in_validateTrade lg0 cfgUnit (1/100) (-1) 0).1,
    (C9_guard_in_validateTrade lg0 cfgUnit (1/100) (-1) 0).2.1,
    (C9_guard_in_validateTrade lg0 cfgUnit (1/100) (-1) 0).2.2 (by decide)⟩

/-- C8 counterexample: in the constant-product variant the reported slippage
is `|priceImpact|`, not the claimed average-execution-price formula.  At the
state `st10` (reserves 10/100) with a buy of 1, the code reports
`20.7801` while `((netIn / outputAmount) - priceBefore) / priceBefore * 100`
is `9.9`. -/
theorem C8_counterexample :
    (calculateBuy st10 1).slippage ≠
      ((1 - (calculateBuy st10 1).fee) / (calculateBuy st10 1).outputAmount -
          getCurrentPrice st10) / getCurrentPrice st10 * 100 := by
  decide

/-- C8 (amended): the power-law simulator `calculateBuyAmount` does report
slippage by the average-execution-price formula, while the constant-product
`calculateBuy` reports `slippage = |priceImpact|`. -/
theorem C8_slippage_definitions :
    (∀ {F : Type} [LinearOrderedField F] (lg : F → F)
        (cfg : BondingCurveConfig F) (feeRate solAmount currentSupply : F),
      (calculateBuyAmount lg cfg feeRate solAmount currentSupply).slippage =
        ((solAmount - solAmount * feeRate) /
            (calculateBuyAmount lg cfg feeRate solAmount
              currentSupply).outputAmount -
          calculatePrice cfg currentSupply) /
          calculatePrice cfg currentSupply * 100) ∧
    (∀ (st : BondingCurveState) (solAmount : ℚ),
      (calculateBuy st solAmount).slippage =
        |(calculateBuy st solAmount).priceImpact|) :=
  ⟨fun _ _ _ _ _ => rfl, fun _ _ => rfl⟩

/-- C5 counterexample: with `initialPrice = 1`, `exponent = 1`,
`maxSupply = 100`, the exponent-1 branch gives a cost of
`50 * ln(3/2)` for moving supply from 0 to 50, while the claimed formula
`initialPrice * maxSupply * ln((s1 + maxSupply)/(s0 + maxSupply))` gives
`100 * ln(3/2)`. -/
theorem C5_counterexample :
    calculateIntegral Real.log cfgR1 50 0 -
        calculateIntegral Real.log cfgR1 0 0 ≠
      cfgR1.initialPrice * cfgR1.maxSupply *
        Real.log ((50 + cfgR1.maxSupply) / (0 + cfgR1.maxSupply)) := by
  intro h
  simp only [calculateIntegral, cfgR1] at h
  norm_num at h

/-- C5 (amended): the exponent-1 branch of `calculateIntegral` computes
`F(s) = initialPrice * s * ln(s / maxSupply + 1)` (the second argument is
ignored), so the cost of moving supply from `s0` to `s1` is
`initialPrice * (s1 * ln(s1/maxSupply + 1) - s0 * ln(s0/maxSupply + 1))`,
not the claimed `initialPrice * maxSupply * ln((s1+maxSupply)/(s0+maxSupply))`. -/
theorem C5_log_branch_formula (ip M rr s0 s1 x y : ℝ) :
    calculateIntegral Real.log (⟨ip, 1, M, rr⟩ : BondingCurveConfig ℝ) s1 x -
        calculateIntegral Real.log (⟨ip, 1, M, rr⟩ : BondingCurveConfig ℝ) s0 y =
      ip * (s1 * Real.log (s1 / M + 1) - s0 * Real.log (s0 / M + 1)) := by
  simp only [calculateIntegral]
  norm_num
  ring


/-- C2 counterexample: `executeBuy` has no graduation logic.  On the graduated
state `stGrad` (`isComplete = true`, `realSolReserves = 85`) a buy of 1 still
succeeds instead of failing with `MarketGraduated`; and on `stCross`
(`realSolReserves = 84.2`) the buy of 1 pushes `realSolReserves` to 85.19,
past the 85 target, without flipping `isComplete`. -/
theorem C2_counterexample :
    stGrad.isComplete = true ∧
      stGrad.realSolReserves ≥ useBondingCurve.realSolReservesTarget ∧
      executeBuy stGrad 1 = .ok stGradAfter ∧
      stCross.realSolReserves < useBondingCurve.realSolReservesTarget ∧
      executeBuy stCross 1 = .ok stCrossAfter ∧
      stCrossAfter.realSolReserves ≥ useBondingCurve.realSolReservesTarget ∧
      stCrossAfter.isComplete = false :=
  ⟨rfl, by decide, by decide, by decide, by decide, by decide, rfl⟩

/-- C2 (amended): `executeBuy` neither checks nor updates the graduation flag.
A successful buy always preserves `isComplete`, and the whole result of
`executeBuy` is independent of the flag (the flag is carried through
unchanged both on success and on the slippage failure). -/
theorem C2_executeBuy_ignores_graduation :
    (∀ (st : BondingCurveState) (q : ℚ) (st' : BondingCurveState),
        executeBuy st q = .ok st' → st'.isComplete = st.isComplete) ∧
    (∀ (st : BondingCurveState) (q : ℚ) (b : Bool),
        executeBuy { st with isComplete := b } q =
          Except.map (fun s => { s with isComplete := b }) (executeBuy st q)) := by
  constructor
  · intro st q st' hok
    simp only [executeBuy] at hok
    split at hok
    · exact absurd hok (by simp)
    · cases hok; rfl
  · intro st q b
    have hc : calculateBuy { st with isComplete := b } q = calculateBuy st q := rfl
    simp only [executeBuy, hc]
    split <;> rfl

/-- Witness for C2 at the graduated state `stGrad` with a buy of 1. -/
theorem C2_witness : stGradAfter.isComplete = stGrad.isComplete :=
  C2_executeBuy_ignores_graduation.1 stGrad 1 stGradAfter (by decide)

/-- C4 counterexample: a sell does not preserve the constant product.  On
`st30` (reserves 30/100, `k = 3000`) a sell of 1 succeeds and leaves
`virtualSolReserves * virtualTokenReserves = 30003/10 ≠ 3000`: the fee stays
inside the virtual quote reserve. -/
theorem C4_counterexample :
    (0:ℚ) < st30.virtualSolReserves ∧ (0:ℚ) < st30.virtualTokenReserves ∧
      (0:ℚ) < 1 ∧ executeSell st30 1 = .ok st30sell ∧
      st30sell.virtualSolReserves * st30sell.virtualTokenReserves ≠
        st30.virtualSolReserves * st30.virtualTokenReserves :=
  ⟨by decide, by decide, by decide, by decide, by decide⟩

/-- C4 (amended): a successful `executeBuy` preserves
`virtualQuote * virtualBase` exactly (the update uses
`newVirtualBase = k / newVirtualQuote`), while a successful `executeSell`
increases the product to `k + fee * (virtualBase + b)`, because the amount
removed from the virtual quote reserve is net of the fee. -/
theorem C4_constant_product_invariant :
    (∀ (st : BondingCurveState) (q : ℚ) (st' : BondingCurveState),
        0 < st.virtualSolReserves → 0 < st.virtualTokenReserves → 0 < q →
        executeBuy st q = .ok st' →
        st'.virtualSolReserves * st'.virtualTokenReserves =
          st.virtualSolReserves * st.virtualTokenReserves) ∧
    (∀ (st : BondingCurveState) (b : ℚ) (st' : BondingCurveState),
        0 < st.virtualSolReserves → 0 < st.virtualTokenReserves → 0 < b →
        executeSell st b = .ok st' →
        st'.virtualSolReserves * st'.virtualTokenReserves =
          st.virtualSolReserves * st.virtualTokenReserves +
            (calculateSell st b).fee * (st.virtualTokenReserves + b)) := by
  constructor
  · intro st q st' hvS hvT hq hok
    obtain ⟨vS, vT, rS, rT, tot, mc, pr, fl⟩ := st
    simp only [executeBuy, calculateBuy, getCurrentPrice, feeRate,
      slippageTolerance] at hok
    split at hok
    · exact absurd hok (by simp)
    · cases hok
      dsimp only at hvS hvT ⊢
      have hA : (0:ℚ) < vS + (q - q * (1/100)) := by nlinarith
      have hA0 : vS + (q - q * (1/100)) ≠ 0 := hA.ne'
      have h1 : vT - (vT - vS * vT / (vS + (q - q * (1/100)))) =
          vS * vT / (vS + (q - q * (1/100))) := by ring
      rw [h1, ← mul_div_assoc, mul_div_cancel_left₀ _ hA0]
  · intro st b st' hvS hvT hb hok
    obtain ⟨vS, vT, rS, rT, tot, mc, pr, fl⟩ := st
    simp only [executeSell, calculateSell, getCurrentPrice, feeRate,
      slippageTolerance] at hok ⊢
    split at hok
    · exact absurd hok (by simp)
    · cases hok
      dsimp only at hvS hvT ⊢
      have hB : (0:ℚ) < vT + b := by linarith
      have hB0 : vT + b ≠ 0 := hB.ne'
      field_simp
      ring

/-- Witness for C4 at the state `st0` (reserves 100/100) with a buy of 1 and
at `st30` with a sell of 1. -/
theorem C4_witness :
    st0buy.virtualSolReserves * st0buy.virtualTokenReserves =
        st0.virtualSolReserves * st0.virtualTokenReserves ∧
      st30sell.virtualSolReserves * st30sell.virtualTokenReserves =
        st30.virtualSolReserves * st30.virtualTokenReserves +
          (calculateSell st30 1).fee * (st30.virtualTokenReserves + 1) :=
  ⟨C4_constant_product_invariant.1 st0 1 st0buy (by decide) (by decide)
      (by decide) (by decide),
    C4_constant_product_invariant.2 st30 1 st30sell (by decide) (by decide)
      (by decide) (by decide)⟩


/-- Helper for C3: when the tolerance test never fires within the fuel, the
early-exit bisection loop returns the midpoint of the plain interval
iteration. -/
theorem solveForSupplyAux_of_not_converged {F : Type} [LinearOrderedField F]
    (lg : F → F) (cfg : BondingCurveConfig F) (s0 target : F) :
    ∀ (n : ℕ) (lh : F × F),
      bisectionConvergedAux lg cfg s0 target n lh = false →
      solveForSupplyAux lg cfg s0 target n lh =
        ((bisectIter lg cfg s0 target n lh).1 +
          (bisectIter lg cfg s0 target n lh).2) / 2 := by
  intro n
  induction n with
  | zero => intro lh _; rfl
  | succ n ih =>
    intro lh hc
    simp only [bisectionConvergedAux] at hc
    simp only [solveForSupplyAux, bisectIter]
    split at hc
    next htol => exact absurd hc (by simp)
    next htol =>
      rw [if_neg htol]
      split at hc
      next hlt => rw [if_pos hlt, if_pos hlt]; exact ih _ hc
      next hlt => rw [if_neg hlt, if_neg hlt]; exact ih _ hc

/-- C3 (amended): when the bisection of `solveForSupply` does not reach the
`1e-10` tolerance within the 100-iteration cap, the function does not fail:
it returns the midpoint `(low + high) / 2` of the final bisection interval. -/
theorem C3_bisection_returns_midpoint {F : Type} [LinearOrderedField F]
    (lg : F → F) (cfg : BondingCurveConfig F) (currentSupply targetIntegral : F)
    (h : bisectionConverged lg cfg currentSupply targetIntegral = false) :
    solveForSupply lg cfg currentSupply targetIntegral =
      ((bisectIter lg cfg currentSupply targetIntegral 100
          (currentSupply, cfg.maxSupply)).1 +
        (bisectIter lg cfg currentSupply targetIntegral 100
          (currentSupply, cfg.maxSupply)).2) / 2 :=
  solveForSupplyAux_of_not_converged lg cfg currentSupply targetIntegral 100 _ h

set_option maxRecDepth 8000 in
/-- C3 counterexample: with `initialPrice = 1`, `k = 2`, `maxSupply = 1` and
the unreachable target integral `10^20`, the bisection never satisfies the
tolerance in its 100 iterations, yet `solveForSupply` returns the supply
value `1 - 1/2^101` instead of failing with `ArithmeticDomainError`. -/
theorem C3_counterexample :
    bisectionConverged lg0 cfgUnit 0 (10 ^ 20) = false ∧
      solveForSupply lg0 cfgUnit 0 (10 ^ 20) = 1 - 1 / 2 ^ 101 :=
  ⟨by decide, by decide⟩

set_option maxRecDepth 8000 in
/-- Witness for C3 at the target `10^22`, which the bisection also never
reaches within tolerance. -/
theorem C3_witness :
    solveForSupply lg0 cfgUnit 0 (10 ^ 22) =
      ((bisectIter lg0 cfgUnit 0 (10 ^ 22) 100 (0, cfgUnit.maxSupply)).1 +
        (bisectIter lg0 cfgUnit 0 (10 ^ 22) 100 (0, cfgUnit.maxSupply)).2) / 2 :=
  C3_bisection_returns_midpoint lg0 cfgUnit 0 (10 ^ 22) (by decide)


/-- C6: a buy of `q` immediately followed by a sell of the resulting
`outputAmount` returns `realQuote` and supply to their pre-buy values up to
the cumulative fees of the two trades. -/
theorem C6_round_trip (st : BondingCurveState) (q : ℚ)
    (st1 st2 : BondingCurveState)
    (hvS : 0 < st.virtualSolReserves) (hvT : 0 < st.virtualTokenReserves)
    (hrS : 0 ≤ st.realSolReserves) (hq : 0 < q)
    (hbuy : executeBuy st q = .ok st1)
    (hsell : executeSell st1 (calculateBuy st q).outputAmount = .ok st2) :
    st2.totalSupply = st.totalSupply ∧
      |st2.realSolReserves - st.realSolReserves| ≤
        (calculateBuy st q).fee +
          (calculateSell st1 (calculateBuy st q).outputAmount).fee := by
  obtain ⟨vS, vT, rS, rT, tot, mc, pr, fl⟩ := st
  simp only [executeBuy, executeSell, calculateBuy, calculateSell,
    getCurrentPrice, feeRate, slippageTolerance] at hbuy hsell ⊢
  split at hbuy
  · exact absurd hbuy (by simp)
  · cases hbuy
    dsimp only at hsell ⊢
    split at hsell
    · exact absurd hsell (by simp)
    · cases hsell
      dsimp only at hvS hvT hrS ⊢
      refine ⟨rfl, ?_⟩
      have hA : (0:ℚ) < vS + (q - q * (1/100)) := by nlinarith
      have hA0 : vS + (q - q * (1/100)) ≠ 0 := hA.ne'
      have hcancel : (vS + (q - q * (1 / 100))) *
          (vS * vT / (vS + (q - q * (1 / 100)))) = vS * vT := by
        rw [mul_comm (vS + (q - q * (1 / 100))), div_mul_cancel₀ _ hA0]
      have hkey : vS + (q - q * (1 / 100)) -
          (vS + (q - q * (1 / 100))) *
              (vT - (vT - vS * vT / (vS + (q - q * (1 / 100))))) /
            (vT - (vT - vS * vT / (vS + (q - q * (1 / 100)))) +
              (vT - vS * vT / (vS + (q - q * (1 / 100))))) =
          q - q * (1 / 100) := by
        rw [show vT - (vT - vS * vT / (vS + (q - q * (1 / 100)))) +
              (vT - vS * vT / (vS + (q - q * (1 / 100)))) = vT from by ring,
          show vT - (vT - vS * vT / (vS + (q - q * (1 / 100)))) =
              vS * vT / (vS + (q - q * (1 / 100))) from by ring,
          hcancel, mul_div_cancel_right₀ _ hvT.ne']
        ring
      rw [hkey]
      rw [show rS + (q - q * (1 / 100)) -
          (q - q * (1 / 100) - (q - q * (1 / 100)) * (1 / 100)) =
          rS + (q - q * (1 / 100)) * (1 / 100) from by ring]
      rw [max_eq_right (by nlinarith), add_sub_cancel_left,
        abs_of_nonneg (by nlinarith)]
      nlinarith


/-- Witness for C6: the round trip at `st0` with a buy of 1. -/
theorem C6_witness :
    st0rt.totalSupply = st0.totalSupply ∧
      |st0rt.realSolReserves - st0.realSolReserves| ≤
        (calculateBuy st0 1).fee +
          (calculateSell st0buy (calculateBuy st0 1).outputAmount).fee :=
  C6_round_trip st0 1 st0buy st0rt (by decide) (by decide) (by decide)
    (by decide) (by decide) (by decide)

end Claims
